import Mathlib

/-!
Verification of the statistics engine of the B3 Stocks Dashboard.

The development shallowly embeds the Return & Statistics Engine of
`src/services.py` and the comparison section of `main` in
`src/streamlit_app.py`.  Prices and returns are exact rationals.  A
pandas `NaN` (for example the sample standard deviation of fewer than
two observations) is modelled as `none`.  A float value of the form
`c * sqrt v` (standard deviations, annualized volatilities,
coefficients of variation) is represented exactly by its rational
radicand and coefficient and is interpreted in theorem statements as a
real number through `Real.sqrt`.
-/

namespace B3

/-- One OHLCV bar, restricted to the fields the statistics read
(`High`, `Low`, `Close`). -/
structure PriceBar where
  high : ℚ
  low : ℚ
  close : ℚ
deriving DecidableEq

/-- A price history for one ticker: the rows of the DataFrame returned by
`load_ticker_history`. -/
abbrev PriceTable := List PriceBar

/-- A close-price matrix: the ordered ticker columns of the DataFrame built
by `df_stocks_close`.  Columns are kept independent (each is its own
ordered list of closes), following the data model of the spec. -/
abbrev ClosePriceMatrix := List (String × List ℚ)

/-- A return matrix: same shape as `ClosePriceMatrix`, one return column
per ticker. -/
abbrev ReturnMatrix := List (String × List ℚ)

/-- Tail of pandas `Series.pct_change()`: each value divided by the
previous value, minus one.  The first argument is the previous value. -/
def pctChangeAux : ℚ → List ℚ → List ℚ
  | _, [] => []
  | p, x :: xs => (x / p - 1) :: pctChangeAux x xs

/-- pandas `Series.pct_change().fillna(0)` (services.py lines 133 and
171): the first entry, `NaN` in pandas, becomes `0`. -/
def pctChangeFill : List ℚ → List ℚ
  | [] => []
  | x :: xs => 0 :: pctChangeAux x xs

/-- pandas `Series.mean()`.  Callers in the source only use it on
non-empty columns; on `[]` this model returns `0` where pandas has
`NaN` (never reached by the claims). -/
def mean (xs : List ℚ) : ℚ := xs.sum / xs.length

/-- The square of pandas `Series.std()`: the sample variance with divisor
`n - 1` (pandas default `ddof=1`).  `none` models the `NaN` pandas
returns for fewer than two observations. -/
def sampleVar (xs : List ℚ) : Option ℚ :=
  if xs.length < 2 then none
  else some ((xs.map (fun x => (x - mean xs) ^ 2)).sum / ((xs.length : ℚ) - 1))

/-- Round to the nearest integer with ties to even, the rounding used by
numpy/pandas `round`. -/
def roundHalfEven (q : ℚ) : ℤ :=
  let f : ℤ := q.floor
  let frac : ℚ := q - (f : ℚ)
  if frac < 1 / 2 then f
  else if 1 / 2 < frac then f + 1
  else if f % 2 = 0 then f else f + 1

/-- pandas `round(2)` on an exactly represented value. -/
def round2 (q : ℚ) : ℚ := (roundHalfEven (q * 100) : ℚ) / 100

/-- Integer part of the square root of a non-negative rational:
`⌊√(m/n)⌋ = ⌊√(m·n)⌋ / n` (integer division). -/
def ratFloorSqrt (q : ℚ) : ℤ := ((Nat.sqrt (q.num.toNat * q.den) / q.den : ℕ) : ℤ)

/-- pandas `round(2)` applied to the (possibly irrational) value
`Real.sqrt q`, `q ≥ 0`, computed exactly: the nearest multiple of
`1/100` with ties to even, found by comparing `q * 10000` with squares
of half-integers. -/
def round2Sqrt (q : ℚ) : ℚ :=
  let y : ℚ := q * 10000
  let k : ℤ := ratFloorSqrt y
  let n : ℤ :=
    if y < ((k : ℚ) + 1 / 2) ^ 2 then k
    else if ((k : ℚ) + 1 / 2) ^ 2 < y then k + 1
    else if k % 2 = 0 then k else k + 1
  (n : ℚ) / 100

/-- pandas `round(2)` applied to `c * Real.sqrt v`, `v ≥ 0` (half-even
rounding is symmetric around zero). -/
def round2CoeffSqrt (c v : ℚ) : ℚ :=
  if c < 0 then -round2Sqrt (c ^ 2 * v) else round2Sqrt (c ^ 2 * v)

/-- pandas `Series.median()`: middle of the sorted values, the mean of the
two middle values for an even count; `none` models the `NaN` returned
for an empty series. -/
def median (xs : List ℚ) : Option ℚ :=
  let s := List.insertionSort (fun a b : ℚ => a ≤ b) xs
  if xs.length = 0 then none
  else if xs.length % 2 = 1 then some (s.getD (xs.length / 2) 0)
  else some ((s.getD (xs.length / 2 - 1) 0 + s.getD (xs.length / 2) 0) / 2)

/-- The dictionary returned by `statistics_historical_data`
(services.py lines 143-152).  Radicand representation:
`Volatility = Real.sqrt volatilityRad`, `Standard Deviation
= Real.sqrt stdRad`, `Coefficient Variation = c.1 * Real.sqrt c.2` for
`cvCoeff = some c`; `none` models pandas `NaN`. -/
structure StatBundle where
  volatilityRad : Option ℚ
  cumulativeReturn : ℚ
  highPrice : Option ℚ
  lowPrice : Option ℚ
  medianPrice : Option ℚ
  meanPrice : Option ℚ
  stdRad : Option ℚ
  cvCoeff : Option (ℚ × ℚ)
deriving DecidableEq

/-- `statistics_historical_data` (services.py lines 111-154):
returns are `Close.pct_change().fillna(0)`; `Volatility` is
`returns.std() * 252 ** 0.5 * 100`, stored as the radicand
`var * 252 * 10000`; `Cumulative Return` is `((1 + returns).prod() - 1)
* 100`; `High`/`Low`/`Median`/`Mean`/`Standard Deviation` are taken over
the price columns; `Coefficient Variation` is `std / mean * 100`, stored
as the pair `(100 / mean, var)`. -/
def statistics_historical_data (t : PriceTable) : StatBundle :=
  let closes := t.map PriceBar.close
  let returns := pctChangeFill closes
  { volatilityRad := (sampleVar returns).map (fun v => v * 252 * 10000)
    cumulativeReturn := ((returns.map (fun r => 1 + r)).prod - 1) * 100
    highPrice := (t.map PriceBar.high).max?
    lowPrice := (t.map PriceBar.low).min?
    medianPrice := median closes
    meanPrice := if closes.isEmpty then none else some (mean closes)
    stdRad := sampleVar closes
    cvCoeff := (sampleVar closes).map (fun v => (100 / mean closes, v)) }

/-- `df_stocks_close` (services.py lines 30-54): one close column per
ticker, in the order of `stocks_list`.  `fetch` abstracts the
per-ticker `yfinance` history lookup (the external Price Series
Accessor). -/
def df_stocks_close (fetch : String → List ℚ) (stocksList : List String) : ClosePriceMatrix :=
  stocksList.map (fun ticker => (ticker, fetch ticker))

/-- `df_returns` (services.py lines 156-173): per-column
`pct_change().fillna(0)`. -/
def df_returns (m : ClosePriceMatrix) : ReturnMatrix :=
  m.map (fun c => (c.1, pctChangeFill c.2))

/-- `((1 + returns).prod() - 1) * 100` for one return column. -/
def cumulativeReturnPct (rs : List ℚ) : ℚ := ((rs.map (fun r => 1 + r)).prod - 1) * 100

/-- pandas `sort_values(ascending=False)` on `(ticker, value)` rows.
pandas reverses the column, applies an ascending argsort, and reverses
the result; for the array sizes at which numpy's default quicksort
falls through to its (stable) insertion sort this equals a stable
descending sort, modelled here directly.  (For more than 16 rows
numpy's quicksort partitioning gives no stability guarantee — see the
analysis of the stable-sort claim.) -/
def sortValuesDesc (rows : List (String × ℚ)) : List (String × ℚ) :=
  List.insertionSort (fun a b => b.2 ≤ a.2) rows

/-- `df_stocks_returns_ranking` (services.py lines 175-193): cumulative
return per column, rows in column order, sorted descending, then
rounded to 2 decimals (the source sorts before rounding). -/
def df_stocks_returns_ranking (m : ReturnMatrix) : List (String × ℚ) :=
  (sortValuesDesc (m.map (fun c => (c.1, cumulativeReturnPct c.2)))).map
    (fun row => (row.1, round2 row.2))

/-- Running `(1 + r).cumprod()`: `acc` is the product accumulated so
far. -/
def cumprodAux (acc : ℚ) : List ℚ → List ℚ
  | [] => []
  | r :: rs => (acc * (1 + r)) :: cumprodAux (acc * (1 + r)) rs

/-- `df_stocks_returns_period` (services.py lines 195-211):
`(((1 + returns).cumprod() - 1) * 100).round(2)` per column. -/
def df_stocks_returns_period (m : ReturnMatrix) : List (String × List ℚ) :=
  m.map (fun c => (c.1, (cumprodAux 1 c.2).map (fun p => round2 ((p - 1) * 100))))

/-- pandas `sort_values(ascending=False)` on rows whose values may be
`NaN` (`none`): the non-`NaN` rows are sorted descending and the `NaN`
rows are appended last (`na_position='last'`). -/
def sortValuesDescNaN (rows : List (String × Option ℚ)) : List (String × Option ℚ) :=
  List.insertionSort (fun a b => b.2.getD 0 ≤ a.2.getD 0)
      (rows.filter (fun r => r.2.isSome))
    ++ rows.filter (fun r => !r.2.isSome)

/-- `df_annualized_volatility` (services.py lines 213-230):
`((returns.std() * 252 ** 0.5) * 100).round(2)` per column (the source
rounds before sorting), sorted descending.  A column value is the
rounding of `Real.sqrt (var * 252 * 10000)`; `none` models the `NaN`
std of a column with fewer than two rows. -/
def df_annualized_volatility (m : ReturnMatrix) : List (String × Option ℚ) :=
  sortValuesDescNaN (m.map (fun c =>
    (c.1, (sampleVar c.2).map (fun v => round2Sqrt (v * 252 * 10000)))))

/-- `df_coefficient_variation` (services.py lines 232-250):
`(close.std() / close.mean() * 100).round(2)` per column (rounded
before sorting), sorted descending.  A column value is the rounding of
`(100 / mean) * Real.sqrt var`. -/
def df_coefficient_variation (m : ClosePriceMatrix) : List (String × Option ℚ) :=
  sortValuesDescNaN (m.map (fun c =>
    (c.1, (sampleVar c.2).map (fun v => round2CoeffSqrt (100 / mean c.2) v))))

/-- Deviations of a column from its mean. -/
def demean (xs : List ℚ) : List ℚ := xs.map (fun x => x - mean xs)

/-- Numerator `Σ dx·dy` of the Pearson correlation computed by pandas
`DataFrame.corr()` (streamlit_app.py line 131). -/
def pearsonNum (x y : List ℚ) : ℚ := (List.zipWith (· * ·) (demean x) (demean y)).sum

/-- Square of the Pearson denominator: the correlation value is
`pearsonNum x y / Real.sqrt (pearsonDenSq x y)`. -/
def pearsonDenSq (x y : List ℚ) : ℚ := pearsonNum x x * pearsonNum y y

/-- `df_close_returns.corr()` (streamlit_app.py line 131): the full
ticker × ticker matrix; each entry stores the exact pair
`(pearsonNum, pearsonDenSq)` representing the float
`num / Real.sqrt denSq`. -/
def corrMatrix (m : ReturnMatrix) : List (String × List (String × (ℚ × ℚ))) :=
  m.map (fun ci => (ci.1, m.map (fun cj =>
    (cj.1, (pearsonNum ci.2 cj.2, pearsonDenSq ci.2 cj.2)))))

/-- Total entry lookup in a correlation matrix (off-range indices return
a zero entry). -/
def corrLookup (M : List (String × List (String × (ℚ × ℚ)))) (i j : ℕ) : ℚ × ℚ :=
  ((M.getD i ("", [])).2.getD j ("", (0, 0))).2

/-- The observable state of the comparison section of `main`
(streamlit_app.py lines 113-187): every engine output, the list of
engine functions that were invoked, whether the section was rendered,
and the outputs actually handed to the charts. -/
structure CompareSection where
  closePrices : ClosePriceMatrix
  closeReturns : ReturnMatrix
  returnsPeriod : List (String × List ℚ)
  cumulativeRanking : List (String × ℚ)
  corr : List (String × List (String × (ℚ × ℚ)))
  annualizedVolatility : List (String × Option ℚ)
  coefficientVariation : List (String × Option ℚ)
  invoked : List String
  rendered : Bool
  displayedRanking : Option (List (String × ℚ))
  displayedCorr : Option (List (String × List (String × (ℚ × ℚ))))

/-- The comparison section of `main` (streamlit_app.py lines 117-187).
The source unconditionally computes all engine outputs (lines 127-133)
and only afterwards checks `if not stocks_list or len(stocks_list) == 1`
and calls `st.stop()` (lines 137-139); so `invoked` always lists every
engine call, while `rendered` and the displayed outputs are gated by
the two-ticker check. -/
def mainCompare (fetch : String → List ℚ) (stocksList : List String) : CompareSection :=
  let close := df_stocks_close fetch stocksList
  let rets := df_returns close
  let renderOk : Bool := !(stocksList.isEmpty || stocksList.length == 1)
  { closePrices := close
    closeReturns := rets
    returnsPeriod := df_stocks_returns_period rets
    cumulativeRanking := df_stocks_returns_ranking rets
    corr := corrMatrix rets
    annualizedVolatility := df_annualized_volatility rets
    coefficientVariation := df_coefficient_variation close
    invoked := ["df_stocks_close", "df_returns", "df_stocks_returns_period",
      "df_stocks_returns_ranking", "DataFrame.corr", "df_annualized_volatility",
      "df_coefficient_variation"]
    rendered := renderOk
    displayedRanking := if renderOk then some (df_stocks_returns_ranking rets) else none
    displayedCorr := if renderOk then some (corrMatrix rets) else none }

/-! ## Helper lemmas -/

lemma length_pctChangeAux (p : ℚ) (xs : List ℚ) :
    (pctChangeAux p xs).length = xs.length := by
  induction xs generalizing p with
  | nil => rfl
  | cons x xs ih => simp [pctChangeAux, ih]

lemma length_pctChangeFill (xs : List ℚ) : (pctChangeFill xs).length = xs.length := by
  cases xs with
  | nil => rfl
  | cons x xs => simp [pctChangeFill, length_pctChangeAux]

lemma pctChangeAux_getD (xs : List ℚ) (p : ℚ) (j : ℕ) (hj : j < xs.length) :
    (pctChangeAux p xs).getD j 0 = xs.getD j 0 / (p :: xs).getD j 0 - 1 := by
  induction xs generalizing p j with
  | nil => simp at hj
  | cons x xs ih =>
    cases j with
    | zero => simp [pctChangeAux]
    | succ j =>
      have hj' : j < xs.length := by simpa using hj
      simpa [pctChangeAux] using ih x j hj'

lemma pctChangeFill_getD (xs : List ℚ) (i : ℕ) (h1 : 1 ≤ i) (h2 : i < xs.length) :
    (pctChangeFill xs).getD i 0 = xs.getD i 0 / xs.getD (i - 1) 0 - 1 := by
  cases xs with
  | nil => simp at h2
  | cons x xs =>
    cases i with
    | zero => omega
    | succ i =>
      have hi : i < xs.length := by simpa using h2
      simpa [pctChangeFill] using pctChangeAux_getD xs x i hi

lemma getD_map {α β : Type} (f : α → β) (l : List α) (k : ℕ) (hk : k < l.length)
    (d : β) (d2 : α) : (l.map f).getD k d = f (l.getD k d2) := by
  have hk' : k < (l.map f).length := by simpa using hk
  rw [List.getD_eq_getElem?_getD, List.getD_eq_getElem?_getD,
    List.getElem?_eq_getElem hk', List.getElem?_eq_getElem hk]
  simp

lemma cumprodAux_getLast (rs : List ℚ) (a : ℚ) (h : rs ≠ []) :
    (cumprodAux a rs).getLast? = some (a * (rs.map (fun r => 1 + r)).prod) := by
  induction rs generalizing a with
  | nil => exact absurd rfl h
  | cons r rs ih =>
    cases rs with
    | nil => simp [cumprodAux]
    | cons r2 rs2 =>
      have := ih (a := a * (1 + r)) (by simp)
      rw [cumprodAux]
      rw [show cumprodAux (a * (1 + r)) (r2 :: rs2)
          = (a * (1 + r)) * (1 + r2) :: cumprodAux ((a * (1 + r)) * (1 + r2)) rs2 from rfl]
      rw [List.getLast?_cons_cons]
      rw [show (a * (1 + r)) * (1 + r2) :: cumprodAux ((a * (1 + r)) * (1 + r2)) rs2
          = cumprodAux (a * (1 + r)) (r2 :: rs2) from rfl, this]
      simp [mul_assoc]

lemma castListSum (l : List ℚ) : ((l.sum : ℚ) : ℝ) = (l.map (fun q : ℚ => (q : ℝ))).sum := by
  induction l with
  | nil => simp
  | cons x xs ih => rw [List.sum_cons, List.map_cons, List.sum_cons, Rat.cast_add, ih]

lemma sampleVar_eq_none (xs : List ℚ) (h : xs.length < 2) : sampleVar xs = none := by
  simp [sampleVar, h]

lemma sampleVar_spec (xs : List ℚ) (h2 : 2 ≤ xs.length) :
    ∃ v : ℚ, sampleVar xs = some v ∧ 0 ≤ v ∧
      (v : ℝ) = ((xs.map (fun x : ℚ => ((x : ℝ)
          - (xs.map (fun q : ℚ => (q : ℝ))).sum / (xs.length : ℝ)) ^ 2)).sum
        / ((xs.length : ℝ) - 1)) := by
  have hlt : ¬ xs.length < 2 := by omega
  refine ⟨_, by rw [sampleVar, if_neg hlt], ?_, ?_⟩
  · apply div_nonneg
    · exact List.sum_nonneg (fun x hx => by
        obtain ⟨y, _, rfl⟩ := List.mem_map.mp hx
        positivity)
    · have : (2 : ℚ) ≤ (xs.length : ℚ) := by exact_mod_cast h2
      linarith
  · have hmean : ((mean xs : ℚ) : ℝ)
        = (xs.map (fun q : ℚ => (q : ℝ))).sum / (xs.length : ℝ) := by
      rw [mean, Rat.cast_div, castListSum, Rat.cast_natCast]
    rw [Rat.cast_div, castListSum, List.map_map, Rat.cast_sub, Rat.cast_natCast,
      Rat.cast_one]
    congr 1
    refine congrArg List.sum (List.map_congr_left fun x _ => ?_)
    simp only [Function.comp_apply, Rat.cast_pow, Rat.cast_sub, hmean]

lemma mem_sortValuesDesc {row : String × ℚ} {rows : List (String × ℚ)}
    (h : row ∈ rows) : row ∈ sortValuesDesc rows :=
  (List.mem_insertionSort _).mpr h

lemma length_sortValuesDesc (rows : List (String × ℚ)) :
    (sortValuesDesc rows).length = rows.length :=
  List.length_insertionSort _ rows

lemma length_sortValuesDescNaN (rows : List (String × Option ℚ)) :
    (sortValuesDescNaN rows).length = rows.length := by
  have hperm := List.filter_append_perm (fun r : String × Option ℚ => r.2.isSome) rows
  calc (sortValuesDescNaN rows).length
      = (rows.filter (fun r => r.2.isSome)).length
        + (rows.filter (fun r => !r.2.isSome)).length := by
        simp [sortValuesDescNaN, List.length_insertionSort]
    _ = rows.length := by
        simpa [List.length_append] using hperm.length_eq

lemma mem_sortValuesDescNaN {row : String × Option ℚ} {rows : List (String × Option ℚ)}
    (h : row ∈ rows) (hs : row.2.isSome) : row ∈ sortValuesDescNaN rows := by
  unfold sortValuesDescNaN
  exact List.mem_append_left _
    ((List.mem_insertionSort _).mpr (List.mem_filter.mpr ⟨h, hs⟩))

lemma getD_mem {α : Type} (l : List α) (k : ℕ) (hk : k < l.length) (d : α) :
    l.getD k d ∈ l := by
  rw [List.getD_eq_getElem?_getD, List.getElem?_eq_getElem hk]
  exact List.getElem_mem hk

lemma sqrt_vol_scale (v : ℝ) (hv : 0 ≤ v) :
    Real.sqrt (v * 252 * 10000) = Real.sqrt v * Real.sqrt 252 * 100 := by
  rw [Real.sqrt_mul (by positivity), Real.sqrt_mul hv]
  have h4 : (10000 : ℝ) = 100 ^ 2 := by norm_num
  rw [h4, Real.sqrt_sq (by norm_num)]

lemma sum_map_neg (l : List ℚ) : (l.map (fun x => -x)).sum = -l.sum := by
  induction l with
  | nil => simp
  | cons x xs ih => simp [ih]; ring

lemma zipWith_mul_self (l : List ℚ) :
    List.zipWith (· * ·) l l = l.map (fun x => x * x) := by
  induction l with
  | nil => rfl
  | cons x xs ih => simp [ih]

lemma zipWith_mul_map_neg (l l2 : List ℚ) :
    List.zipWith (· * ·) l (l2.map (fun x => -x))
      = (List.zipWith (· * ·) l l2).map (fun x => -x) := by
  induction l generalizing l2 with
  | nil => rfl
  | cons x xs ih =>
    cases l2 with
    | nil => rfl
    | cons y ys => simp [ih, mul_neg]

lemma demean_neg (xs : List ℚ) :
    demean (xs.map (fun x => -x)) = (demean xs).map (fun x => -x) := by
  unfold demean
  have hmean : mean (xs.map (fun x => -x)) = -mean xs := by
    simp [mean, sum_map_neg, neg_div]
  rw [hmean, List.map_map, List.map_map]
  refine List.map_congr_left (fun x _ => ?_)
  simp [Function.comp]
  ring

lemma pearsonNum_comm (x y : List ℚ) : pearsonNum x y = pearsonNum y x := by
  unfold pearsonNum
  rw [List.zipWith_comm_of_comm (· * ·) mul_comm]

lemma pearsonNum_self_nonneg (x : List ℚ) : 0 ≤ pearsonNum x x := by
  unfold pearsonNum
  rw [zipWith_mul_self]
  exact List.sum_nonneg (fun a ha => by
    obtain ⟨y, _, rfl⟩ := List.mem_map.mp ha
    exact mul_self_nonneg y)

lemma pearsonNum_neg_right (x y : List ℚ) :
    pearsonNum x (y.map (fun r => -r)) = -pearsonNum x y := by
  unfold pearsonNum
  rw [demean_neg, zipWith_mul_map_neg, sum_map_neg]

lemma pearsonNum_neg_neg (x : List ℚ) :
    pearsonNum (x.map (fun r => -r)) (x.map (fun r => -r)) = pearsonNum x x := by
  rw [pearsonNum_neg_right, pearsonNum_comm, pearsonNum_neg_right]
  ring

lemma corrLookup_corrMatrix (m : ReturnMatrix) (i j : ℕ)
    (hi : i < m.length) (hj : j < m.length) :
    corrLookup (corrMatrix m) i j
      = (pearsonNum ((m.getD i ("", [])).2) ((m.getD j ("", [])).2),
         pearsonDenSq ((m.getD i ("", [])).2) ((m.getD j ("", [])).2)) := by
  unfold corrLookup corrMatrix
  rw [getD_map _ m i hi _ ("", [])]
  have hj' : j < (m.map (fun cj => (cj.1,
      (pearsonNum ((m.getD i ("", [])).2) cj.2,
       pearsonDenSq ((m.getD i ("", [])).2) cj.2)))).length := by simpa using hj
  rw [getD_map _ m j hj _ ("", [])]

lemma renderOk_false (l : List String) (h : l.length < 2) :
    (!(l.isEmpty || l.length == 1)) = false := by
  match l with
  | [] => rfl
  | [a] => rfl
  | a :: b :: t => simp at h; omega

lemma median_isSome (xs : List ℚ) (h : xs ≠ []) : (median xs).isSome = true := by
  rw [median]
  have h0 : xs.length ≠ 0 := fun hc => h (List.length_eq_zero.mp hc)
  rw [if_neg h0]
  split <;> rfl

lemma sampleVar_isSome (xs : List ℚ) (h : 2 ≤ xs.length) :
    (sampleVar xs).isSome = true := by
  rw [sampleVar, if_neg (by omega)]
  rfl

/-! ## Claim theorems -/

/-- C1, counterexample: the claim says that in a run with fewer than two
selected tickers none of the multi-ticker engine functions is invoked and
no output matrix is produced.  In the embedded run with the single ticker
"PETR4.SA" every engine function appears in the invocation trace (the
source calls them at streamlit_app.py lines 127-133, before the
two-ticker check at line 137), a ranking row and a non-empty correlation
matrix are computed, refuting the claim. -/
theorem C1_counterexample :
    ("df_returns" ∈ (mainCompare (fun _ => [100, 110]) ["PETR4.SA"]).invoked) ∧
    ("df_stocks_returns_ranking" ∈ (mainCompare (fun _ => [100, 110]) ["PETR4.SA"]).invoked) ∧
    ("df_stocks_returns_period" ∈ (mainCompare (fun _ => [100, 110]) ["PETR4.SA"]).invoked) ∧
    ("df_annualized_volatility" ∈ (mainCompare (fun _ => [100, 110]) ["PETR4.SA"]).invoked) ∧
    ("df_coefficient_variation" ∈ (mainCompare (fun _ => [100, 110]) ["PETR4.SA"]).invoked) ∧
    ("DataFrame.corr" ∈ (mainCompare (fun _ => [100, 110]) ["PETR4.SA"]).invoked) ∧
    (mainCompare (fun _ => [100, 110]) ["PETR4.SA"]).cumulativeRanking = [("PETR4.SA", 10)] ∧
    (mainCompare (fun _ => [100, 110]) ["PETR4.SA"]).corr ≠ [] := by
  refine ⟨?_, ?_, ?_, ?_, ?_, ?_, ?_, ?_⟩
  · simp [mainCompare]
  · simp [mainCompare]
  · simp [mainCompare]
  · simp [mainCompare]
  · simp [mainCompare]
  · simp [mainCompare]
  · norm_num [mainCompare, df_stocks_close, df_returns, df_stocks_returns_ranking,
      sortValuesDesc, cumulativeReturnPct, List.insertionSort, List.orderedInsert,
      round2, roundHalfEven, Rat.floor_def', pctChangeFill, pctChangeAux]
  · simp [mainCompare, corrMatrix, df_returns, df_stocks_close]

/-- C1, amended: with fewer than two selected tickers the comparison
section of `main` renders nothing — the two-ticker check stops the page
before any comparison output is displayed, so no output matrix reaches
the user and no crash occurs — but the check runs only after every
Return & Statistics Engine function has been invoked on the short
selection. -/
theorem C1_short_circuit (fetch : String → List ℚ) (l : List String)
    (h : l.length < 2) :
    (mainCompare fetch l).rendered = false ∧
    (mainCompare fetch l).displayedRanking = none ∧
    (mainCompare fetch l).displayedCorr = none ∧
    (mainCompare fetch l).invoked = ["df_stocks_close", "df_returns",
      "df_stocks_returns_period", "df_stocks_returns_ranking", "DataFrame.corr",
      "df_annualized_volatility", "df_coefficient_variation"] := by
  have hb := renderOk_false l h
  refine ⟨?_, ?_, ?_, rfl⟩ <;> simp [mainCompare, hb]

/-- C1, witness for the amended theorem at a concrete one-ticker run. -/
theorem C1_short_circuit_witness :
    (["PETR4.SA"] : List String).length < 2 ∧
    ((mainCompare (fun _ => [100, 110]) ["PETR4.SA"]).rendered = false ∧
     (mainCompare (fun _ => [100, 110]) ["PETR4.SA"]).displayedRanking = none ∧
     (mainCompare (fun _ => [100, 110]) ["PETR4.SA"]).displayedCorr = none ∧
     (mainCompare (fun _ => [100, 110]) ["PETR4.SA"]).invoked = ["df_stocks_close",
       "df_returns", "df_stocks_returns_period", "df_stocks_returns_ranking",
       "DataFrame.corr", "df_annualized_volatility", "df_coefficient_variation"]) :=
  ⟨by decide, C1_short_circuit (fun _ => [100, 110]) ["PETR4.SA"] (by decide)⟩

/-- C3, counterexample: the claim says a PriceTable with fewer than 2 bars
yields standard deviation 0 (not NaN) and Volatility 0.  On the one-bar
table `[⟨5, 5, 5⟩]` the code yields NaN (modelled `none`) for both the
Standard Deviation and the Volatility — pandas `std()` with `ddof=1` of a
single observation is NaN — refuting the claim; the cumulative return is
0 and High == Low == Close as claimed. -/
theorem C3_counterexample :
    (statistics_historical_data [⟨5, 5, 5⟩]).stdRad = none ∧
    (statistics_historical_data [⟨5, 5, 5⟩]).stdRad ≠ some 0 ∧
    (statistics_historical_data [⟨5, 5, 5⟩]).volatilityRad = none ∧
    (statistics_historical_data [⟨5, 5, 5⟩]).volatilityRad ≠ some 0 ∧
    (statistics_historical_data [⟨5, 5, 5⟩]).cumulativeReturn = 0 ∧
    (statistics_historical_data [⟨5, 5, 5⟩]).highPrice = some 5 ∧
    (statistics_historical_data [⟨5, 5, 5⟩]).lowPrice = some 5 := by
  refine ⟨?_, ?_, ?_, ?_, ?_, ?_, ?_⟩
  · norm_num [statistics_historical_data, sampleVar]
  · intro hcon
    norm_num [statistics_historical_data, sampleVar] at hcon
    exact Option.noConfusion hcon
  · norm_num [statistics_historical_data, sampleVar, pctChangeFill, pctChangeAux]
  · intro hcon
    norm_num [statistics_historical_data, sampleVar, pctChangeFill, pctChangeAux] at hcon
    exact Option.noConfusion hcon
  · norm_num [statistics_historical_data, pctChangeFill, pctChangeAux]
  · rfl
  · rfl

/-- C3, amended: a PriceTable with fewer than 2 bars yields standard
deviation NaN (modelled `none`, pandas sample std of fewer than two
observations) and hence Volatility NaN — not 0 — while the cumulative
return is 0; for a single bar whose High and Low equal its Close, High
Price == Low Price == that Close and the cumulative return is 0. -/
theorem C3_fewer_than_two_bars (t : PriceTable) (h : t.length < 2)
    (b : PriceBar) (hb : b.high = b.close ∧ b.low = b.close) :
    (statistics_historical_data t).stdRad = none ∧
    (statistics_historical_data t).volatilityRad = none ∧
    (statistics_historical_data t).cumulativeReturn = 0 ∧
    (statistics_historical_data [b]).highPrice = some b.close ∧
    (statistics_historical_data [b]).lowPrice = some b.close ∧
    (statistics_historical_data [b]).cumulativeReturn = 0 := by
  obtain ⟨hbh, hbl⟩ := hb
  have hlen : (t.map PriceBar.close).length < 2 := by simpa using h
  have hlenr : (pctChangeFill (t.map PriceBar.close)).length < 2 := by
    rw [length_pctChangeFill]; exact hlen
  refine ⟨?_, ?_, ?_, ?_, ?_, ?_⟩
  · simp [statistics_historical_data, sampleVar_eq_none _ hlen]
  · simp [statistics_historical_data, sampleVar_eq_none _ hlenr]
  · match t, h with
    | [], _ => norm_num [statistics_historical_data, pctChangeFill]
    | [x], _ => norm_num [statistics_historical_data, pctChangeFill, pctChangeAux]
  · rw [show (statistics_historical_data [b]).highPrice = some b.high from rfl, hbh]
  · rw [show (statistics_historical_data [b]).lowPrice = some b.low from rfl, hbl]
  · norm_num [statistics_historical_data, pctChangeFill, pctChangeAux]

/-- C3, witness for the amended theorem at the concrete one-bar table. -/
theorem C3_fewer_than_two_bars_witness :
    ([(⟨5, 5, 5⟩ : PriceBar)] : PriceTable).length < 2 ∧
    ((5 : ℚ) = 5 ∧ (5 : ℚ) = 5) ∧
    ((statistics_historical_data [⟨5, 5, 5⟩]).stdRad = none ∧
     (statistics_historical_data [⟨5, 5, 5⟩]).volatilityRad = none ∧
     (statistics_historical_data [⟨5, 5, 5⟩]).cumulativeReturn = 0 ∧
     (statistics_historical_data [⟨5, 5, 5⟩]).highPrice = some 5 ∧
     (statistics_historical_data [⟨5, 5, 5⟩]).lowPrice = some 5 ∧
     (statistics_historical_data [⟨5, 5, 5⟩]).cumulativeReturn = 0) :=
  ⟨by decide, ⟨rfl, rfl⟩,
    C3_fewer_than_two_bars [⟨5, 5, 5⟩] (by decide) ⟨5, 5, 5⟩ ⟨rfl, rfl⟩⟩

/-- C5: the cumulative return of `statistics_historical_data` and of
`df_stocks_returns_ranking` is `(∏ (1 + r) − 1) * 100` over the return
series, and on the close prices `[100, 110, 99]` the returns are
`[0, 1/10, -1/10]` and the cumulative return is exactly `-1` percent. -/
theorem C5_cumulative_return :
    (∀ t : PriceTable, (statistics_historical_data t).cumulativeReturn =
      (((pctChangeFill (t.map PriceBar.close)).map (fun r => 1 + r)).prod - 1) * 100) ∧
    (∀ m : ReturnMatrix, df_stocks_returns_ranking m =
      (sortValuesDesc (m.map (fun c =>
        (c.1, ((c.2.map (fun r => 1 + r)).prod - 1) * 100)))).map
        (fun row => (row.1, round2 row.2))) ∧
    pctChangeFill [100, 110, 99] = [0, 1/10, -1/10] ∧
    cumulativeReturnPct [0, 1/10, -1/10] = -1 ∧
    df_stocks_returns_ranking [("X", [0, 1/10, -1/10])] = [("X", -1)] := by
  refine ⟨fun t => rfl, fun m => rfl, ?_, ?_, ?_⟩
  · norm_num [pctChangeFill, pctChangeAux]
  · norm_num [cumulativeReturnPct]
  · norm_num [df_stocks_returns_ranking, sortValuesDesc, cumulativeReturnPct,
      List.insertionSort, List.orderedInsert, round2, roundHalfEven, Rat.floor_def']

/-- C10: on an empty ticker selection every engine function returns an
empty table without any failure — `df_stocks_close` with an empty ticker
list gives the empty matrix, and each downstream function maps it to an
empty output — and the embedded dashboard run evaluates all of them
before the two-ticker check, which then merely leaves the section
unrendered. -/
theorem C10_empty_input (fetch : String → List ℚ) :
    df_stocks_close fetch [] = [] ∧
    df_returns [] = [] ∧
    df_stocks_returns_ranking [] = [] ∧
    df_stocks_returns_period [] = [] ∧
    df_annualized_volatility [] = [] ∧
    df_coefficient_variation [] = [] ∧
    corrMatrix [] = [] ∧
    (mainCompare fetch []).rendered = false ∧
    (mainCompare fetch []).displayedRanking = none ∧
    (mainCompare fetch []).invoked = ["df_stocks_close", "df_returns",
      "df_stocks_returns_period", "df_stocks_returns_ranking", "DataFrame.corr",
      "df_annualized_volatility", "df_coefficient_variation"] :=
  ⟨rfl, rfl, rfl, rfl, rfl, rfl, rfl, rfl, rfl, rfl⟩

/-- C4: per column, `df_returns` computes `pct_change().fillna(0)`: the
series has the length of the price column, its first entry is 0, and
every later entry is `price[i] / price[i-1] - 1`; the same
`pctChangeFill` series drives the cumulative return inside
`statistics_historical_data`. -/
theorem C4_returns_formula (m : ClosePriceMatrix) (k i : ℕ) (hk : k < m.length)
    (hne : (m.getD k ("", [])).2 ≠ []) :
    ((df_returns m).getD k ("", [])).2 = pctChangeFill ((m.getD k ("", [])).2) ∧
    (pctChangeFill ((m.getD k ("", [])).2)).length = ((m.getD k ("", [])).2).length ∧
    (pctChangeFill ((m.getD k ("", [])).2)).getD 0 0 = 0 ∧
    (1 ≤ i → i < ((m.getD k ("", [])).2).length →
      (pctChangeFill ((m.getD k ("", [])).2)).getD i 0
        = ((m.getD k ("", [])).2).getD i 0 / ((m.getD k ("", [])).2).getD (i - 1) 0 - 1) ∧
    (∀ t : PriceTable, (statistics_historical_data t).cumulativeReturn =
      (((pctChangeFill (t.map PriceBar.close)).map (fun r => 1 + r)).prod - 1) * 100) := by
  refine ⟨?_, length_pctChangeFill _, ?_,
    fun h1 h2 => pctChangeFill_getD _ i h1 h2, fun t => rfl⟩
  · unfold df_returns
    rw [getD_map _ m k hk _ ("", [])]
  · cases hps : (m.getD k ("", [])).2 with
    | nil => exact absurd hps hne
    | cons x xs => rfl

/-- C4, witness at the concrete close column `[100, 110]`, index 1. -/
theorem C4_returns_formula_witness :
    (0 < ([("X", [100, 110])] : ClosePriceMatrix).length) ∧
    ((([("X", [100, 110])] : ClosePriceMatrix).getD 0 ("", [])).2 ≠ []) ∧
    (((df_returns [("X", [100, 110])]).getD 0 ("", [])).2
        = pctChangeFill ((([("X", [100, 110])] : ClosePriceMatrix).getD 0 ("", [])).2) ∧
     (pctChangeFill ((([("X", [100, 110])] : ClosePriceMatrix).getD 0 ("", [])).2)).length
        = ((([("X", [100, 110])] : ClosePriceMatrix).getD 0 ("", [])).2).length ∧
     (pctChangeFill ((([("X", [100, 110])] : ClosePriceMatrix).getD 0 ("", [])).2)).getD 0 0 = 0 ∧
     (1 ≤ 1 → 1 < ((([("X", [100, 110])] : ClosePriceMatrix).getD 0 ("", [])).2).length →
       (pctChangeFill ((([("X", [100, 110])] : ClosePriceMatrix).getD 0 ("", [])).2)).getD 1 0
         = ((([("X", [100, 110])] : ClosePriceMatrix).getD 0 ("", [])).2).getD 1 0
           / ((([("X", [100, 110])] : ClosePriceMatrix).getD 0 ("", [])).2).getD (1 - 1) 0 - 1) ∧
     (∀ t : PriceTable, (statistics_historical_data t).cumulativeReturn =
       (((pctChangeFill (t.map PriceBar.close)).map (fun r => 1 + r)).prod - 1) * 100)) :=
  ⟨by decide, by decide,
    C4_returns_formula [("X", [100, 110])] 0 1 (by decide) (by decide)⟩

/-- C7: for every non-empty ticker column, the last row of the
cumulative-return series of `df_stocks_returns_period` equals the
(2-decimal rounded) scalar cumulative return that
`df_stocks_returns_ranking` reports for that ticker. -/
theorem C7_round_trip (m : ReturnMatrix) (k : ℕ) (hk : k < m.length)
    (hne : (m.getD k ("", [])).2 ≠ []) :
    (((df_stocks_returns_period m).getD k ("", [])).2).getLast?
      = some (round2 (cumulativeReturnPct ((m.getD k ("", [])).2))) ∧
    (((m.getD k ("", [])).1, round2 (cumulativeReturnPct ((m.getD k ("", [])).2)))
      ∈ df_stocks_returns_ranking m) := by
  constructor
  · unfold df_stocks_returns_period
    rw [getD_map _ m k hk _ ("", [])]
    rw [List.getLast?_map, cumprodAux_getLast _ 1 hne]
    simp [cumulativeReturnPct, one_mul]
  · unfold df_stocks_returns_ranking
    have hmem : ((m.getD k ("", [])).1, cumulativeReturnPct ((m.getD k ("", [])).2))
        ∈ m.map (fun c => (c.1, cumulativeReturnPct c.2)) :=
      List.mem_map_of_mem _ (getD_mem m k hk ("", []))
    exact List.mem_map_of_mem _ (mem_sortValuesDesc hmem)

/-- C7, witness at the concrete return column `[0, 1/10]`. -/
theorem C7_round_trip_witness :
    (0 < ([("X", [0, 1/10])] : ReturnMatrix).length) ∧
    ((([("X", [0, 1/10])] : ReturnMatrix).getD 0 ("", [])).2 ≠ []) ∧
    ((((df_stocks_returns_period [("X", [0, 1/10])]).getD 0 ("", [])).2).getLast?
       = some (round2 (cumulativeReturnPct ((([("X", [0, 1/10])] : ReturnMatrix).getD 0 ("", [])).2))) ∧
     (((([("X", [0, 1/10])] : ReturnMatrix).getD 0 ("", [])).1,
        round2 (cumulativeReturnPct ((([("X", [0, 1/10])] : ReturnMatrix).getD 0 ("", [])).2)))
       ∈ df_stocks_returns_ranking [("X", [0, 1/10])])) :=
  ⟨by decide, by decide, C7_round_trip [("X", [0, 1/10])] 0 (by decide) (by decide)⟩

/-- C9: the engine functions are total over well-formed input: every
ranking and matrix function returns exactly one row per input ticker
(in particular it returns, never raises), and on a non-empty PriceTable
`statistics_historical_data` yields defined High/Low/Median/Mean values
and — with at least two bars — a defined Standard Deviation, Volatility
and Coefficient of Variation (the division by the mean close price
included). -/
theorem C9_totality (m : ClosePriceMatrix) (t : PriceTable) (hne : t ≠ []) :
    (df_returns m).length = m.length ∧
    (df_stocks_returns_period m).length = m.length ∧
    (df_stocks_returns_ranking m).length = m.length ∧
    (df_annualized_volatility m).length = m.length ∧
    (df_coefficient_variation m).length = m.length ∧
    (corrMatrix m).length = m.length ∧
    (statistics_historical_data t).highPrice.isSome = true ∧
    (statistics_historical_data t).lowPrice.isSome = true ∧
    (statistics_historical_data t).medianPrice.isSome = true ∧
    (statistics_historical_data t).meanPrice.isSome = true ∧
    (2 ≤ t.length →
      (statistics_historical_data t).stdRad.isSome = true ∧
      (statistics_historical_data t).volatilityRad.isSome = true ∧
      (statistics_historical_data t).cvCoeff.isSome = true) := by
  have hclen : (t.map PriceBar.close).length = t.length := List.length_map _ _
  refine ⟨by simp [df_returns], by simp [df_stocks_returns_period],
    by simp [df_stocks_returns_ranking, length_sortValuesDesc],
    by simp [df_annualized_volatility, length_sortValuesDescNaN],
    by simp [df_coefficient_variation, length_sortValuesDescNaN],
    by simp [corrMatrix], ?_, ?_, ?_, ?_, ?_⟩
  · cases t with
    | nil => exact absurd rfl hne
    | cons b bs => rfl
  · cases t with
    | nil => exact absurd rfl hne
    | cons b bs => rfl
  · exact median_isSome _ (by
      cases t with
      | nil => exact absurd rfl hne
      | cons b bs => simp)
  · cases t with
    | nil => exact absurd rfl hne
    | cons b bs => rfl
  · intro h2
    refine ⟨?_, ?_, ?_⟩
    · exact sampleVar_isSome _ (by omega)
    · show ((sampleVar (pctChangeFill (t.map PriceBar.close))).map _).isSome = true
      rw [Option.isSome_map']
      exact sampleVar_isSome _ (by rw [length_pctChangeFill]; omega)
    · show ((sampleVar (t.map PriceBar.close)).map _).isSome = true
      rw [Option.isSome_map']
      exact sampleVar_isSome _ (by omega)

/-- C9, witness at a concrete two-ticker matrix and two-bar table. -/
theorem C9_totality_witness :
    (([(⟨1, 1, 100⟩ : PriceBar), ⟨2, 2, 110⟩] : PriceTable) ≠ []) ∧
    ((df_returns [("A", [100, 110]), ("B", [50, 60])]).length
        = ([("A", [100, 110]), ("B", [50, 60])] : ClosePriceMatrix).length ∧
     (df_stocks_returns_period [("A", [100, 110]), ("B", [50, 60])]).length
        = ([("A", [100, 110]), ("B", [50, 60])] : ClosePriceMatrix).length ∧
     (df_stocks_returns_ranking [("A", [100, 110]), ("B", [50, 60])]).length
        = ([("A", [100, 110]), ("B", [50, 60])] : ClosePriceMatrix).length ∧
     (df_annualized_volatility [("A", [100, 110]), ("B", [50, 60])]).length
        = ([("A", [100, 110]), ("B", [50, 60])] : ClosePriceMatrix).length ∧
     (df_coefficient_variation [("A", [100, 110]), ("B", [50, 60])]).length
        = ([("A", [100, 110]), ("B", [50, 60])] : ClosePriceMatrix).length ∧
     (corrMatrix [("A", [100, 110]), ("B", [50, 60])]).length
        = ([("A", [100, 110]), ("B", [50, 60])] : ClosePriceMatrix).length ∧
     (statistics_historical_data [⟨1, 1, 100⟩, ⟨2, 2, 110⟩]).highPrice.isSome = true ∧
     (statistics_historical_data [⟨1, 1, 100⟩, ⟨2, 2, 110⟩]).lowPrice.isSome = true ∧
     (statistics_historical_data [⟨1, 1, 100⟩, ⟨2, 2, 110⟩]).medianPrice.isSome = true ∧
     (statistics_historical_data [⟨1, 1, 100⟩, ⟨2, 2, 110⟩]).meanPrice.isSome = true ∧
     (2 ≤ ([(⟨1, 1, 100⟩ : PriceBar), ⟨2, 2, 110⟩] : PriceTable).length →
       (statistics_historical_data [⟨1, 1, 100⟩, ⟨2, 2, 110⟩]).stdRad.isSome = true ∧
       (statistics_historical_data [⟨1, 1, 100⟩, ⟨2, 2, 110⟩]).volatilityRad.isSome = true ∧
       (statistics_historical_data [⟨1, 1, 100⟩, ⟨2, 2, 110⟩]).cvCoeff.isSome = true)) :=
  ⟨by decide, C9_totality [("A", [100, 110]), ("B", [50, 60])]
    [⟨1, 1, 100⟩, ⟨2, 2, 110⟩] (by decide)⟩

/-- C6: the Volatility of `statistics_historical_data` is the sample
standard deviation (divisor `n - 1`) of the return series times
`√252 * 100`: its radicand `vr * 252 * 10000` exists, `vr` casts to the
explicit sample-variance formula over ℝ, and
`√(vr * 252 * 10000) = √vr * √252 * 100`; the Standard Deviation field
is the sample variance of the Close column; and `df_annualized_volatility`
reports, for a column with at least two observations, the 2-decimal
rounding of the same quantity `√(vc * 252 * 10000)`. -/
theorem C6_annualized_volatility (t : PriceTable) (ht : 2 ≤ t.length)
    (m : ReturnMatrix) (k : ℕ) (hk : k < m.length)
    (hcol : 2 ≤ ((m.getD k ("", [])).2).length) :
    ∃ vr vc : ℚ,
      sampleVar (pctChangeFill (t.map PriceBar.close)) = some vr ∧
      (statistics_historical_data t).volatilityRad = some (vr * 252 * 10000) ∧
      0 ≤ vr ∧
      ((vr : ℝ) = (((pctChangeFill (t.map PriceBar.close)).map (fun x : ℚ => ((x : ℝ)
          - ((pctChangeFill (t.map PriceBar.close)).map (fun q : ℚ => (q : ℝ))).sum
            / ((pctChangeFill (t.map PriceBar.close)).length : ℝ)) ^ 2)).sum
        / (((pctChangeFill (t.map PriceBar.close)).length : ℝ) - 1))) ∧
      Real.sqrt ((vr : ℝ) * 252 * 10000) = Real.sqrt (vr : ℝ) * Real.sqrt 252 * 100 ∧
      (statistics_historical_data t).stdRad = sampleVar (t.map PriceBar.close) ∧
      sampleVar ((m.getD k ("", [])).2) = some vc ∧
      (((m.getD k ("", [])).1, some (round2Sqrt (vc * 252 * 10000)))
        ∈ df_annualized_volatility m) ∧
      Real.sqrt ((vc : ℝ) * 252 * 10000) = Real.sqrt (vc : ℝ) * Real.sqrt 252 * 100 := by
  have hlenr : (pctChangeFill (t.map PriceBar.close)).length = t.length := by
    rw [length_pctChangeFill]; exact List.length_map _ _
  obtain ⟨vr, hvr, hvrnn, hvrcast⟩ :=
    sampleVar_spec (pctChangeFill (t.map PriceBar.close)) (by omega)
  obtain ⟨vc, hvc, hvcnn, _⟩ := sampleVar_spec ((m.getD k ("", [])).2) hcol
  refine ⟨vr, vc, hvr, ?_, hvrnn, hvrcast, ?_, rfl, hvc, ?_, ?_⟩
  · show ((sampleVar (pctChangeFill (t.map PriceBar.close))).map
        (fun v => v * 252 * 10000)) = some (vr * 252 * 10000)
    rw [hvr]
    rfl
  · exact sqrt_vol_scale _ (by exact_mod_cast hvrnn)
  · unfold df_annualized_volatility
    have hrow := List.mem_map_of_mem
      (fun c : String × List ℚ =>
        (c.1, (sampleVar c.2).map (fun v => round2Sqrt (v * 252 * 10000))))
      (getD_mem m k hk ("", []))
    have hrow2 : ((m.getD k ("", [])).1,
        (sampleVar ((m.getD k ("", [])).2)).map (fun v => round2Sqrt (v * 252 * 10000)))
        ∈ m.map (fun c =>
          (c.1, (sampleVar c.2).map (fun v => round2Sqrt (v * 252 * 10000)))) := hrow
    rw [hvc] at hrow2
    exact mem_sortValuesDescNaN hrow2 rfl
  · exact sqrt_vol_scale _ (by exact_mod_cast hvcnn)

/-- C6, witness at the two-bar table with closes 100, 110 and the return
column `[0, 1/10]`. -/
theorem C6_annualized_volatility_witness :
    (2 ≤ ([(⟨1, 1, 100⟩ : PriceBar), ⟨2, 2, 110⟩] : PriceTable).length) ∧
    (0 < ([("X", [0, 1/10])] : ReturnMatrix).length) ∧
    (2 ≤ ((([("X", [0, 1/10])] : ReturnMatrix).getD 0 ("", [])).2).length) ∧
    (∃ vr vc : ℚ,
      sampleVar (pctChangeFill (([(⟨1, 1, 100⟩ : PriceBar), ⟨2, 2, 110⟩] : PriceTable).map
        PriceBar.close)) = some vr ∧
      (statistics_historical_data [⟨1, 1, 100⟩, ⟨2, 2, 110⟩]).volatilityRad
        = some (vr * 252 * 10000) ∧
      0 ≤ vr ∧
      ((vr : ℝ) = (((pctChangeFill (([(⟨1, 1, 100⟩ : PriceBar), ⟨2, 2, 110⟩] : PriceTable).map
            PriceBar.close)).map (fun x : ℚ => ((x : ℝ)
          - ((pctChangeFill (([(⟨1, 1, 100⟩ : PriceBar), ⟨2, 2, 110⟩] : PriceTable).map
              PriceBar.close)).map (fun q : ℚ => (q : ℝ))).sum
            / ((pctChangeFill (([(⟨1, 1, 100⟩ : PriceBar), ⟨2, 2, 110⟩] : PriceTable).map
              PriceBar.close)).length : ℝ)) ^ 2)).sum
        / (((pctChangeFill (([(⟨1, 1, 100⟩ : PriceBar), ⟨2, 2, 110⟩] : PriceTable).map
            PriceBar.close)).length : ℝ) - 1))) ∧
      Real.sqrt ((vr : ℝ) * 252 * 10000) = Real.sqrt (vr : ℝ) * Real.sqrt 252 * 100 ∧
      (statistics_historical_data [⟨1, 1, 100⟩, ⟨2, 2, 110⟩]).stdRad
        = sampleVar (([(⟨1, 1, 100⟩ : PriceBar), ⟨2, 2, 110⟩] : PriceTable).map
            PriceBar.close) ∧
      sampleVar ((([("X", [0, 1/10])] : ReturnMatrix).getD 0 ("", [])).2) = some vc ∧
      (((([("X", [0, 1/10])] : ReturnMatrix).getD 0 ("", [])).1,
          some (round2Sqrt (vc * 252 * 10000)))
        ∈ df_annualized_volatility [("X", [0, 1/10])]) ∧
      Real.sqrt ((vc : ℝ) * 252 * 10000) = Real.sqrt (vc : ℝ) * Real.sqrt 252 * 100) :=
  ⟨by decide, by decide, by decide,
    C6_annualized_volatility [⟨1, 1, 100⟩, ⟨2, 2, 110⟩] (by decide)
      [("X", [0, 1/10])] 0 (by decide) (by decide)⟩

/-- C8: the correlation matrix stores, at entry (i, j), exactly the
Pearson pair for columns i and j; it is symmetric; when column i has
nonzero variance the diagonal value `num / √denSq` equals 1; two
identical columns have correlation 1 and a column and its pointwise
negation have correlation -1. -/
theorem C8_correlation (m : ReturnMatrix) (i j : ℕ)
    (hi : i < m.length) (hj : j < m.length) :
    corrLookup (corrMatrix m) i j
      = (pearsonNum ((m.getD i ("", [])).2) ((m.getD j ("", [])).2),
         pearsonDenSq ((m.getD i ("", [])).2) ((m.getD j ("", [])).2)) ∧
    corrLookup (corrMatrix m) i j = corrLookup (corrMatrix m) j i ∧
    (pearsonNum ((m.getD i ("", [])).2) ((m.getD i ("", [])).2) ≠ 0 →
      ((corrLookup (corrMatrix m) i i).1 : ℝ)
        / Real.sqrt ((corrLookup (corrMatrix m) i i).2 : ℝ) = 1) ∧
    ((m.getD j ("", [])).2 = (m.getD i ("", [])).2 →
      pearsonNum ((m.getD i ("", [])).2) ((m.getD i ("", [])).2) ≠ 0 →
      ((corrLookup (corrMatrix m) i j).1 : ℝ)
        / Real.sqrt ((corrLookup (corrMatrix m) i j).2 : ℝ) = 1) ∧
    ((m.getD j ("", [])).2 = ((m.getD i ("", [])).2).map (fun r => -r) →
      pearsonNum ((m.getD i ("", [])).2) ((m.getD i ("", [])).2) ≠ 0 →
      ((corrLookup (corrMatrix m) i j).1 : ℝ)
        / Real.sqrt ((corrLookup (corrMatrix m) i j).2 : ℝ) = -1) := by
  have hij := corrLookup_corrMatrix m i j hi hj
  have hji := corrLookup_corrMatrix m j i hj hi
  have hii := corrLookup_corrMatrix m i i hi hi
  have hdiag : ∀ x : List ℚ, pearsonNum x x ≠ 0 →
      ((pearsonNum x x : ℚ) : ℝ) / Real.sqrt ((pearsonDenSq x x : ℚ) : ℝ) = 1 := by
    intro x h0
    rw [show pearsonDenSq x x = pearsonNum x x * pearsonNum x x from rfl]
    rw [Rat.cast_mul]
    rw [Real.sqrt_mul_self (by exact_mod_cast pearsonNum_self_nonneg x)]
    exact div_self (by exact_mod_cast h0)
  refine ⟨hij, ?_, ?_, ?_, ?_⟩
  · rw [hij, hji]
    rw [Prod.mk.injEq]
    exact ⟨pearsonNum_comm _ _, mul_comm _ _⟩
  · intro h0
    rw [hii]
    exact hdiag _ h0
  · intro heq h0
    rw [hij, heq]
    exact hdiag _ h0
  · intro heq h0
    rw [hij, heq]
    rw [show pearsonDenSq ((m.getD i ("", [])).2)
          (((m.getD i ("", [])).2).map (fun r => -r))
        = pearsonNum ((m.getD i ("", [])).2) ((m.getD i ("", [])).2)
          * pearsonNum ((m.getD i ("", [])).2) ((m.getD i ("", [])).2) from by
      rw [show pearsonDenSq ((m.getD i ("", [])).2)
            (((m.getD i ("", [])).2).map (fun r => -r))
          = pearsonNum ((m.getD i ("", [])).2) ((m.getD i ("", [])).2)
            * pearsonNum (((m.getD i ("", [])).2).map (fun r => -r))
              (((m.getD i ("", [])).2).map (fun r => -r)) from rfl]
      rw [pearsonNum_neg_neg]]
    rw [pearsonNum_neg_right, Rat.cast_neg, Rat.cast_mul]
    rw [Real.sqrt_mul_self (by exact_mod_cast pearsonNum_self_nonneg _)]
    rw [neg_div]
    rw [div_self (by exact_mod_cast h0)]

/-- C8, witness at the two-ticker matrix where column B is the pointwise
negation of column A. -/
theorem C8_correlation_witness :
    (0 < ([("A", [0, 1/10, -1/10]), ("B", [0, -1/10, 1/10])] : ReturnMatrix).length) ∧
    (1 < ([("A", [0, 1/10, -1/10]), ("B", [0, -1/10, 1/10])] : ReturnMatrix).length) ∧
    (corrLookup (corrMatrix [("A", [0, 1/10, -1/10]), ("B", [0, -1/10, 1/10])]) 0 1
      = (pearsonNum ((([("A", [0, 1/10, -1/10]), ("B", [0, -1/10, 1/10])] : ReturnMatrix).getD 0 ("", [])).2)
          ((([("A", [0, 1/10, -1/10]), ("B", [0, -1/10, 1/10])] : ReturnMatrix).getD 1 ("", [])).2),
         pearsonDenSq ((([("A", [0, 1/10, -1/10]), ("B", [0, -1/10, 1/10])] : ReturnMatrix).getD 0 ("", [])).2)
          ((([("A", [0, 1/10, -1/10]), ("B", [0, -1/10, 1/10])] : ReturnMatrix).getD 1 ("", [])).2)) ∧
     corrLookup (corrMatrix [("A", [0, 1/10, -1/10]), ("B", [0, -1/10, 1/10])]) 0 1
      = corrLookup (corrMatrix [("A", [0, 1/10, -1/10]), ("B", [0, -1/10, 1/10])]) 1 0 ∧
     (pearsonNum ((([("A", [0, 1/10, -1/10]), ("B", [0, -1/10, 1/10])] : ReturnMatrix).getD 0 ("", [])).2)
        ((([("A", [0, 1/10, -1/10]), ("B", [0, -1/10, 1/10])] : ReturnMatrix).getD 0 ("", [])).2) ≠ 0 →
      ((corrLookup (corrMatrix [("A", [0, 1/10, -1/10]), ("B", [0, -1/10, 1/10])]) 0 0).1 : ℝ)
        / Real.sqrt ((corrLookup (corrMatrix [("A", [0, 1/10, -1/10]), ("B", [0, -1/10, 1/10])]) 0 0).2 : ℝ) = 1) ∧
     ((([("A", [0, 1/10, -1/10]), ("B", [0, -1/10, 1/10])] : ReturnMatrix).getD 1 ("", [])).2
        = (([("A", [0, 1/10, -1/10]), ("B", [0, -1/10, 1/10])] : ReturnMatrix).getD 0 ("", [])).2 →
      pearsonNum ((([("A", [0, 1/10, -1/10]), ("B", [0, -1/10, 1/10])] : ReturnMatrix).getD 0 ("", [])).2)
        ((([("A", [0, 1/10, -1/10]), ("B", [0, -1/10, 1/10])] : ReturnMatrix).getD 0 ("", [])).2) ≠ 0 →
      ((corrLookup (corrMatrix [("A", [0, 1/10, -1/10]), ("B", [0, -1/10, 1/10])]) 0 1).1 : ℝ)
        / Real.sqrt ((corrLookup (corrMatrix [("A", [0, 1/10, -1/10]), ("B", [0, -1/10, 1/10])]) 0 1).2 : ℝ) = 1) ∧
     ((([("A", [0, 1/10, -1/10]), ("B", [0, -1/10, 1/10])] : ReturnMatrix).getD 1 ("", [])).2
        = ((([("A", [0, 1/10, -1/10]), ("B", [0, -1/10, 1/10])] : ReturnMatrix).getD 0 ("", [])).2).map (fun r => -r) →
      pearsonNum ((([("A", [0, 1/10, -1/10]), ("B", [0, -1/10, 1/10])] : ReturnMatrix).getD 0 ("", [])).2)
        ((([("A", [0, 1/10, -1/10]), ("B", [0, -1/10, 1/10])] : ReturnMatrix).getD 0 ("", [])).2) ≠ 0 →
      ((corrLookup (corrMatrix [("A", [0, 1/10, -1/10]), ("B", [0, -1/10, 1/10])]) 0 1).1 : ℝ)
        / Real.sqrt ((corrLookup (corrMatrix [("A", [0, 1/10, -1/10]), ("B", [0, -1/10, 1/10])]) 0 1).2 : ℝ) = -1)) :=
  ⟨by decide, by decide,
    C8_correlation [("A", [0, 1/10, -1/10]), ("B", [0, -1/10, 1/10])] 0 1
      (by decide) (by decide)⟩

end B3
